import Mathlib

/-!
Verification development for the BED-to-JSON variant-alias converter
(`bed_to_json_converter.py`).  The Python source is shallowly embedded:
strings are `String`, Python string helpers (`strip`, `split`, `replace`,
`capitalize`, …) are modelled as executable Lean functions over the
character list, machine integers are `Int`, and fallible code returns
`Option`.  The one runtime exception that can occur inside
`process_row` (indexing `alt_alleles[0]` on an empty list) is modelled
explicitly by the empty-list case of the corresponding `match`, mirroring
the enclosing `try/except` which increments the `errors` counter and
returns `None`.
-/

namespace BedToJson

/-! ## Python string primitives -/

/-- Characters Python `str.strip()` removes. -/
def pyWhitespace : List Char := [' ', '\t', '\n', '\x0d', '\x0b', '\x0c']

/-- Python `str.strip()`: drop leading and trailing whitespace. -/
def pyStrip (s : String) : String :=
  ⟨((s.data.dropWhile (pyWhitespace.contains ·)).reverse.dropWhile
      (pyWhitespace.contains ·)).reverse⟩

/-- `pre` is a prefix of `l` (used for Python `startswith` and substring search). -/
def listIsPrefOf : List Char → List Char → Bool
  | [], _ => true
  | _ :: _, [] => false
  | a :: as, b :: bs => a == b && listIsPrefOf as bs

/-- Python `needle in hay` over character lists. -/
def listHasSub (needle : List Char) : List Char → Bool
  | [] => needle.isEmpty
  | c :: rest => listIsPrefOf needle (c :: rest) || listHasSub needle rest

/-- Python `needle in hay` for strings. -/
def strContains (hay needle : String) : Bool := listHasSub needle.data hay.data

/-- Python `s.startswith(pre)`. -/
def pyStartsWith (s pre : String) : Bool := listIsPrefOf pre.data s.data

/-- Python single-character membership `c in s`. -/
def strHasChar (s : String) (c : Char) : Bool := s.data.contains c

/-- Helper for Python `str.replace` with a non-empty pattern `p :: ps`;
structural recursion on a fuel argument so the kernel can evaluate it. -/
def replaceAux (p : Char) (ps repl : List Char) : Nat → List Char → List Char
  | _, [] => []
  | 0, hay => hay
  | fuel + 1, c :: rest =>
    if listIsPrefOf (p :: ps) (c :: rest) then
      repl ++ replaceAux p ps repl fuel (rest.drop ps.length)
    else
      c :: replaceAux p ps repl fuel rest

/-- Python `s.replace(pat, repl)` (all non-overlapping occurrences, left to
right).  The source only calls it with non-empty patterns. -/
def pyReplace (s pat repl : String) : String :=
  match pat.data with
  | [] => s
  | p :: ps => ⟨replaceAux p ps repl.data s.data.length s.data⟩

/-- Python `s.split(sep)` for a single-character separator (full split). -/
def splitCharAux (sep : Char) (acc : List Char) : List Char → List (List Char)
  | [] => [acc.reverse]
  | c :: rest =>
    if c == sep then acc.reverse :: splitCharAux sep [] rest
    else splitCharAux sep (c :: acc) rest

/-- Python `s.split(sep)` (single-character separator). -/
def pySplitChar (s : String) (sep : Char) : List String :=
  (splitCharAux sep [] s.data).map (⟨·⟩)

/-- Python `s.split(sep, 1)` for a single-character separator: the part
before the first occurrence and the part after it (`(s, "")` when the
separator does not occur — callers guard with a containment check). -/
def splitFirstCharAux (sep : Char) (acc : List Char) : List Char → List Char × List Char
  | [] => (acc.reverse, [])
  | c :: rest =>
    if c == sep then (acc.reverse, rest)
    else splitFirstCharAux sep (c :: acc) rest

/-- Python `s.split(sep, 1)` packaged as a pair of strings. -/
def splitFirstChar (s : String) (sep : Char) : String × String :=
  let p := splitFirstCharAux sep [] s.data
  (⟨p.1⟩, ⟨p.2⟩)

/-- Python `s.lower()` (ASCII, which covers every string the converter builds). -/
def pyLower (s : String) : String := ⟨s.data.map Char.toLower⟩

/-- Python `s.upper()` (ASCII). -/
def pyUpper (s : String) : String := ⟨s.data.map Char.toUpper⟩

/-- Python `s.capitalize()`: first character upper-cased, the rest lower-cased. -/
def pyCapitalize (s : String) : String :=
  match s.data with
  | [] => ""
  | c :: rest => ⟨c.toUpper :: rest.map Char.toLower⟩

/-- Python `s[2:]` (drop the first two code points). -/
def pyDrop2 (s : String) : String := ⟨s.data.drop 2⟩

/-- Non-empty all-digit string, i.e. Python `s.isdigit()` restricted to ASCII. -/
def pyIsDigitStr (s : String) : Bool := !s.data.isEmpty && s.data.all Char.isDigit

/-- Digits of a decimal numeral as a `Nat` (`none` when empty or non-digit). -/
def digitsToNat (cs : List Char) : Option Nat :=
  if cs.isEmpty then none
  else if cs.all Char.isDigit then
    some (cs.foldl (fun a c => a * 10 + (c.toNat - 48)) 0)
  else none

/-- Python `int(s)` on an already-stripped string: optional sign followed by
decimal digits (`none` models the `ValueError` branch). -/
def pyInt (s : String) : Option Int :=
  match s.data with
  | '+' :: rest => (digitsToNat rest).map Int.ofNat
  | '-' :: rest => (digitsToNat rest).map (fun n => -(Int.ofNat n : Int))
  | cs => (digitsToNat cs).map Int.ofNat

/-! ## Amino-acid code tables (module-level constants of the source) -/

/-- `AA_3_TO_1_MAP`: three-letter to one-letter amino-acid codes, in source
order (insertion order matters for the derived reverse map). -/
def AA_3_TO_1_MAP : List (String × String) :=
  [("Ala", "A"), ("Arg", "R"), ("Asn", "N"), ("Asp", "D"),
   ("Cys", "C"), ("Gln", "Q"), ("Glu", "E"), ("Gly", "G"),
   ("His", "H"), ("Ile", "I"), ("Leu", "L"), ("Lys", "K"),
   ("Met", "M"), ("Phe", "F"), ("Pro", "P"), ("Ser", "S"),
   ("Thr", "T"), ("Trp", "W"), ("Tyr", "Y"), ("Val", "V"),
   ("Ter", "*"), ("Stop", "*"), ("Xaa", "X")]

/-- Insert a binding into an association list, overwriting an existing key
(models assignment into a Python dict during a comprehension). -/
def insertOverwrite (acc : List (String × String)) (k v : String) :
    List (String × String) :=
  if acc.any (fun p => p.1 == k) then
    acc.map (fun p => if p.1 == k then (k, v) else p)
  else acc ++ [(k, v)]

/-- `AA_1_TO_3_MAP = {v: k for k, v in AA_3_TO_1_MAP.items() if len(v) == 1}` —
the reverse map; the duplicate value `*` makes the later `Stop` entry win. -/
def AA_1_TO_3_MAP : List (String × String) :=
  AA_3_TO_1_MAP.foldl
    (fun acc kv => if kv.2.length == 1 then insertOverwrite acc kv.2 kv.1 else acc) []

/-- Python `AA_3_TO_1_MAP.get(k)` (`none` when absent). -/
def lookup3to1 (k : String) : Option String :=
  (AA_3_TO_1_MAP.find? (fun p => p.1 == k)).map (·.2)

/-- Python `AA_1_TO_3_MAP.get(k)` (`none` when absent). -/
def lookup1to3 (k : String) : Option String :=
  (AA_1_TO_3_MAP.find? (fun p => p.1 == k)).map (·.2)

/-! ## VariantParser conversions and validators -/

/-- `VariantParser.convert_aa_3_to_1`. -/
def convert_aa_3_to_1 (aa_3letter : String) : String :=
  if ["del", "ins", "dup", "fs", "ext"].contains aa_3letter then aa_3letter
  else if strContains aa_3letter "fs" then
    let aa_part := pyReplace aa_3letter "fs" ""
    if aa_part ≠ "" then
      ((lookup3to1 (pyCapitalize aa_part)).getD aa_part) ++ "fs"
    else aa_3letter
  else if strContains aa_3letter "ext" then
    let aa_part := pyReplace aa_3letter "ext" ""
    if aa_part ≠ "" then
      ((lookup3to1 (pyCapitalize aa_part)).getD aa_part) ++ "ext"
    else aa_3letter
  else
    let c := pyCapitalize aa_3letter
    (lookup3to1 c).getD c

/-- `VariantParser.convert_1_to_3`. -/
def convert_1_to_3 (aa_1letter : String) : String :=
  if aa_1letter = "*" then "Ter"
  else (lookup1to3 (pyUpper aa_1letter)).getD aa_1letter

/-- `VALID_CHROMOSOMES` (the canonical set built at module load). -/
def VALID_CHROMOSOMES : List String :=
  ["chr1", "chr2", "chr3", "chr4", "chr5", "chr6", "chr7", "chr8", "chr9",
   "chr10", "chr11", "chr12", "chr13", "chr14", "chr15", "chr16", "chr17",
   "chr18", "chr19", "chr20", "chr21", "chr22", "chrX", "chrY", "chrM",
   "chrMT",
   "1", "2", "3", "4", "5", "6", "7", "8", "9", "10", "11", "12", "13",
   "14", "15", "16", "17", "18", "19", "20", "21", "22", "X", "Y", "M", "MT"]

/-- `VariantParser.validate_chromosome`. -/
def validate_chromosome (chrom : String) : Bool :=
  VALID_CHROMOSOMES.contains chrom || pyStartsWith chrom "chr"
    || pyIsDigitStr chrom

/-- `VariantParser.validate_position`: `int(pos) > 0`, `False` on `ValueError`. -/
def validate_position (pos : String) : Bool :=
  match pyInt pos with
  | some n => decide (0 < n)
  | none => false

/-! ## The HGVSp notation parser

Each regular expression of `VariantParser.parse_hgvsp` is transcribed as a
deterministic functional parser over the character list.  The patterns are
deterministic: every quantified sub-pattern is followed by a character class
disjoint from it (digits vs. letters vs. `*`/`(`/`_`), so the greedy match
of the regex engine never needs to backtrack into a captured group; the one
optional range group of the deletion/duplication patterns is handled by
trying the group first and falling back to skipping it, exactly as the
engine does. -/

/-- Exactly three ASCII letters (`[A-Za-z]{3}`). -/
def take3Alpha : List Char → Option (List Char × List Char)
  | a :: b :: c :: rest =>
    if a.isAlpha && b.isAlpha && c.isAlpha then some ([a, b, c], rest) else none
  | _ => none

/-- One or more ASCII digits, maximal run (`\d+`). -/
def takeDigits1 (cs : List Char) : Option (List Char × List Char) :=
  match cs.takeWhile Char.isDigit with
  | [] => none
  | ds => some (ds, cs.dropWhile Char.isDigit)

/-- `([^:]+):` — the characters before the first colon (non-empty). -/
def splitFirstColon (acc : List Char) : List Char → Option (List Char × List Char)
  | [] => none
  | c :: rest =>
    if c == ':' then (if acc.isEmpty then none else some (acc.reverse, rest))
    else splitFirstColon (c :: acc) rest

/-- Consume one occurrence of `ch` if present (`\.?`, `\(?`, `\)?`). -/
def dropOpt (ch : Char) : List Char → List Char
  | [] => []
  | c :: rest => if c == ch then rest else c :: rest

/-- The shared pattern head `^([^:]+):p\.?\(?`: protein id, the literal `p`,
an optional dot and an optional opening parenthesis. -/
def hgvspHead (cs : List Char) : Option (List Char × List Char) :=
  match splitFirstColon [] cs with
  | none => none
  | some (pid, rest) =>
    match rest with
    | 'p' :: r1 => some (pid, dropOpt '(' (dropOpt '.' r1))
    | _ => none

/-- The alternative `([A-Za-z]{3}|\*)` (the two branches are disjoint:
`*` is not a letter, so the regex engine's first-match-wins order is
deterministic here). -/
def takeAltSub (r3 : List Char) : Option (List Char × List Char) :=
  match r3 with
  | '*' :: r4 => some (['*'], r4)
  | _ => take3Alpha r3

/-- Pattern 1, simple substitution:
`^([^:]+):p\.?\(?([A-Za-z]{3})(\d+)([A-Za-z]{3}|\*)\)?$`. -/
def parseSimpleSub (cs : List Char) : Option (String × String × String × String) :=
  match hgvspHead cs with
  | none => none
  | some (pid, r1) =>
    match take3Alpha r1 with
    | none => none
    | some (refAa, r2) =>
      match takeDigits1 r2 with
      | none => none
      | some (pos, r3) =>
        match takeAltSub r3 with
        | none => none
        | some (altAa, r4) =>
          if (dropOpt ')' r4).isEmpty then
            some (⟨pid⟩, ⟨pos⟩, ⟨refAa⟩, ⟨altAa⟩)
          else none

/-- Pattern 2, frameshift (prefix match, the optional `Ter(\d+)` tail and any
trailing characters are ignored):
`^([^:]+):p\.?\(?([A-Za-z]{3})(\d+)([A-Za-z]{3})fs(?:Ter(\d+))?`. -/
def parseFs (cs : List Char) : Option (String × String × String × String) :=
  match hgvspHead cs with
  | none => none
  | some (pid, r1) =>
    match take3Alpha r1 with
    | none => none
    | some (refAa, r2) =>
      match takeDigits1 r2 with
      | none => none
      | some (pos, r3) =>
        match take3Alpha r3 with
        | none => none
        | some (altAa, r4) =>
          if listIsPrefOf ['f', 's'] r4 then
            some (⟨pid⟩, ⟨pos⟩, ⟨refAa⟩, (⟨altAa⟩ : String) ++ "fs")
          else none

/-- The optional `(?:_[A-Za-z]{3}\d+)?` followed by the literal `suffix`:
try the range group first, then without it (regex backtracking order). -/
def rangeThenSuffix (suffix : List Char) (r3 : List Char) : Bool :=
  (match r3 with
   | '_' :: r4 =>
     (match take3Alpha r4 with
      | some (_, r5) =>
        (match takeDigits1 r5 with
         | some (_, r6) => listIsPrefOf suffix r6
         | none => false)
      | none => false)
   | _ => false)
  || listIsPrefOf suffix r3

/-- Pattern 3, deletion (prefix match):
`^([^:]+):p\.?\(?([A-Za-z]{3})(\d+)(?:_[A-Za-z]{3}\d+)?del`. -/
def parseDel (cs : List Char) : Option (String × String × String × String) :=
  match hgvspHead cs with
  | none => none
  | some (pid, r1) =>
    match take3Alpha r1 with
    | none => none
    | some (refAa, r2) =>
      match takeDigits1 r2 with
      | none => none
      | some (pos, r3) =>
        if rangeThenSuffix ['d', 'e', 'l'] r3 then
          some (⟨pid⟩, ⟨pos⟩, ⟨refAa⟩, "del")
        else none

/-- Pattern 4, insertion (prefix match):
`^([^:]+):p\.?\(?([A-Za-z]{3})(\d+)_[A-Za-z]{3}\d+ins[A-Za-z]+`. -/
def parseIns (cs : List Char) : Option (String × String × String × String) :=
  match hgvspHead cs with
  | none => none
  | some (pid, r1) =>
    match take3Alpha r1 with
    | none => none
    | some (refAa, r2) =>
      match takeDigits1 r2 with
      | none => none
      | some (pos, r3) =>
        match r3 with
        | '_' :: r4 =>
          (match take3Alpha r4 with
           | none => none
           | some (_, r5) =>
             (match takeDigits1 r5 with
              | none => none
              | some (_, r6) =>
                match r6 with
                | 'i' :: 'n' :: 's' :: c :: _ =>
                  if c.isAlpha then some (⟨pid⟩, ⟨pos⟩, ⟨refAa⟩, "ins") else none
                | _ => none))
        | _ => none

/-- Pattern 5, duplication (prefix match):
`^([^:]+):p\.?\(?([A-Za-z]{3})(\d+)(?:_[A-Za-z]{3}\d+)?dup`. -/
def parseDup (cs : List Char) : Option (String × String × String × String) :=
  match hgvspHead cs with
  | none => none
  | some (pid, r1) =>
    match take3Alpha r1 with
    | none => none
    | some (refAa, r2) =>
      match takeDigits1 r2 with
      | none => none
      | some (pos, r3) =>
        if rangeThenSuffix ['d', 'u', 'p'] r3 then
          some (⟨pid⟩, ⟨pos⟩, ⟨refAa⟩, "dup")
        else none

/-- Pattern 6, extension (prefix match):
`^([^:]+):p\.?\(?\*(\d+)([A-Za-z]{3})ext`. -/
def parseExt (cs : List Char) : Option (String × String × String × String) :=
  match hgvspHead cs with
  | none => none
  | some (pid, r1) =>
    match r1 with
    | '*' :: r2 =>
      (match takeDigits1 r2 with
       | none => none
       | some (pos, r3) =>
         match take3Alpha r3 with
         | none => none
         | some (newAa, r4) =>
           if listIsPrefOf ['e', 'x', 't'] r4 then
             some (⟨pid⟩, ⟨pos⟩, "*", (⟨newAa⟩ : String) ++ "ext")
           else none)
    | _ => none

/-- `VariantParser.parse_hgvsp`: normalisation, the synonymous-variant skip,
then the six patterns tried in their fixed source order.  Returns
`(protein_id, position, ref_aa, alt_aa)`. -/
def parse_hgvsp (hgvsp : String) : Option (String × String × String × String) :=
  if hgvsp = "" ∨ hgvsp = "-" then none
  else
    let h := pyReplace hgvsp "%3D" "="
    if strHasChar h '=' then none
    else
      match parseSimpleSub h.data with
      | some r => some r
      | none =>
        match parseFs h.data with
        | some r => some r
        | none =>
          match parseDel h.data with
          | some r => some r
          | none =>
            match parseIns h.data with
            | some r => some r
            | none =>
              match parseDup h.data with
              | some r => some r
              | none => parseExt h.data

/-- `VariantParser.extract_rsid`: the first comma-separated token that,
stripped, is `rs` (case-insensitive) followed by one or more digits. -/
def extract_rsid (existing_variation : String) : Option String :=
  if existing_variation = "" ∨ existing_variation = "-" then none
  else
    ((pySplitChar existing_variation ',').map pyStrip).find?
      (fun t => pyStartsWith (pyLower t) "rs" && pyIsDigitStr (pyDrop2 t))

/-! ## BedToJsonConverter data model -/

/-- One data row, holding the raw values of the required columns
(`get_column_value` strips each value on access, modelled by applying
`pyStrip` at every read in `process_row`). -/
structure Row where
  chrom : String
  pos : String
  id : String
  ref : String
  alt : String
  symbol : String
  existing_variation : String
  gene : String
  feature : String
  protein_position : String
  amino_acids : String
  mane_select : String
  hgvsc : String
  hgvsp : String
deriving DecidableEq

/-- The emitted variant record.  Keys that the source adds only
conditionally (`rsid`, `hgvs_full`, `hgvsc`) are `Option`s; the four
protein aliases are always present whenever a record is emitted. -/
structure Variant where
  internal_id : String
  rsid : Option String
  spdi : String
  hgvs_full : Option String
  hgvsc : Option String
  hgvsp_3p : String
  hgvsp_3 : String
  hgvsp_1p : String
  hgvsp_1 : String
deriving DecidableEq

/-- The `self.stats` counter dictionary. -/
structure Stats where
  total_rows : Nat
  processed : Nat
  skipped : Nat
  errors : Nat
  missing_rsid : Nat
  missing_hgvsp : Nat
  invalid_chromosome : Nat
  invalid_position : Nat
deriving DecidableEq

/-- The zeroed counters a fresh converter starts with. -/
def stats0 : Stats :=
  { total_rows := 0, processed := 0, skipped := 0, errors := 0,
    missing_rsid := 0, missing_hgvsp := 0, invalid_chromosome := 0,
    invalid_position := 0 }

/-! ## BedToJsonConverter helpers -/

/-- `BedToJsonConverter.extract_clean_change`: the part after the first
colon, or the input unchanged when there is no colon. -/
def extract_clean_change (hgvsc : String) : String :=
  if strHasChar hgvsc ':' then (splitFirstChar hgvsc ':').2 else hgvsc

/-- `BedToJsonConverter.extract_clean_protein_change` (same algorithm,
separate function in the source). -/
def extract_clean_protein_change (hgvsp : String) : String :=
  if strHasChar hgvsp ':' then (splitFirstChar hgvsp ':').2 else hgvsp

/-- `BedToJsonConverter.parse_amino_acids`: split `<ref>/<alt>` or
`<ref>><alt>` once, strip both sides, require both non-empty. -/
def parse_amino_acids (amino_acids : String) : Option (String × String) :=
  if amino_acids = "" ∨ amino_acids = "-" then none
  else
    let parts : Option (String × String) :=
      if strHasChar amino_acids '/' then some (splitFirstChar amino_acids '/')
      else if strHasChar amino_acids '>' then some (splitFirstChar amino_acids '>')
      else none
    match parts with
    | some (a, b) =>
      let ref_aa := pyStrip a
      let alt_aa := pyStrip b
      if ref_aa ≠ "" ∧ alt_aa ≠ "" then some (ref_aa, alt_aa) else none
    | none => none

/-- `BedToJsonConverter.handle_multiallelic`: with a comma, split and keep
the non-empty stripped alleles (possibly none at all); otherwise the single
field as-is. -/
def handle_multiallelic (alt : String) : List String :=
  if strHasChar alt ',' then
    ((pySplitChar alt ',').map pyStrip).filter (· ≠ "")
  else [alt]

/-- `MANE_SELECT.split(',')[0].strip()`. -/
def maneFirst (mane_select : String) : String :=
  pyStrip (splitFirstChar mane_select ',').1

/-! ## process_row

A direct transcription of `BedToJsonConverter.process_row`.  The enclosing
`try/except Exception` is modelled at its only reachable raise site:
`alt_alleles[0]` on the empty list (`IndexError`), i.e. the `[]` case of the
`match` on `handle_multiallelic`; every other operation in the body is total
(`int(pos)` is guarded by `validate_position`). -/
def process_row (row : Row) (stats : Stats) : Option Variant × Stats :=
  let chrom := pyStrip row.chrom
  let pos := pyStrip row.pos
  let var_id := pyStrip row.id
  let ref := pyStrip row.ref
  let alt0 := pyStrip row.alt
  let gene_symbol := pyStrip row.symbol
  if validate_chromosome chrom then
    if validate_position pos then
      if pyStartsWith var_id "Sniffles2" then (none, stats)
      else
        let existing_variation := pyStrip row.existing_variation
        let hgvsc := pyStrip row.hgvsc
        let hgvsp := pyStrip row.hgvsp
        let mane_select := pyStrip row.mane_select
        let protein_position := pyStrip row.protein_position
        let amino_acids := pyStrip row.amino_acids
        let rsid := extract_rsid existing_variation
        let stats1 :=
          match rsid with
          | none => { stats with missing_rsid := stats.missing_rsid + 1 }
          | some _ => stats
        match handle_multiallelic alt0 with
        | [] => (none, { stats1 with errors := stats1.errors + 1 })
        | alt :: _ =>
          let spdi_pos : Int := (pyInt pos).getD 0 - 1
          let spdi_chrom := pyReplace chrom "chr" ""
          let spdi := spdi_chrom ++ ":" ++ toString spdi_pos ++ ":" ++ ref ++ ":" ++ alt
          if hgvsp = "" ∨ hgvsp = "-" then
            let stats2 := { stats1 with missing_hgvsp := stats1.missing_hgvsp + 1 }
            if protein_position ≠ "" ∧ protein_position ≠ "-" then
              match parse_amino_acids amino_acids with
              | some (ref_aa_1, alt_aa_1) =>
                let ref_aa_3 :=
                  if ref_aa_1.length = 1 then convert_1_to_3 ref_aa_1 else ref_aa_1
                let alt_aa_3 :=
                  if alt_aa_1.length = 1 then convert_1_to_3 alt_aa_1 else alt_aa_1
                let fullAndC : Option String × Option String :=
                  if hgvsc ≠ "" ∧ hgvsc ≠ "-" then
                    let clean_hgvsc := extract_clean_change hgvsc
                    let full :=
                      if mane_select ≠ "" ∧ mane_select ≠ "-" then
                        let mane_transcript := maneFirst mane_select
                        if pyStartsWith mane_transcript "NM_" then
                          mane_transcript ++ "(" ++ gene_symbol ++ "):" ++
                            clean_hgvsc ++ "(p." ++ ref_aa_3 ++ protein_position ++
                            alt_aa_3 ++ ")"
                        else
                          gene_symbol ++ ":" ++ clean_hgvsc ++ "(p." ++ ref_aa_3 ++
                            protein_position ++ alt_aa_3 ++ ")"
                      else
                        gene_symbol ++ ":" ++ clean_hgvsc ++ "(p." ++ ref_aa_3 ++
                          protein_position ++ alt_aa_3 ++ ")"
                    (some full, some (gene_symbol ++ " " ++ clean_hgvsc))
                  else (none, none)
                (some
                  { internal_id := var_id
                    rsid := rsid
                    spdi := spdi
                    hgvs_full := fullAndC.1
                    hgvsc := fullAndC.2
                    hgvsp_3p := gene_symbol ++ " p." ++ ref_aa_3 ++ protein_position ++ alt_aa_3
                    hgvsp_3 := gene_symbol ++ " " ++ ref_aa_3 ++ protein_position ++ alt_aa_3
                    hgvsp_1p := gene_symbol ++ " p." ++ ref_aa_1 ++ protein_position ++ alt_aa_1
                    hgvsp_1 := gene_symbol ++ " " ++ ref_aa_1 ++ protein_position ++ alt_aa_1 },
                 stats2)
              | none => (none, stats2)
            else (none, stats2)
          else
            match parse_hgvsp hgvsp with
            | none => (none, stats1)
            | some (_, position, ref_aa_3, alt_aa_3) =>
              let ref_aa_1 := convert_aa_3_to_1 ref_aa_3
              let alt_aa_1 := convert_aa_3_to_1 alt_aa_3
              let clean_hgvsc :=
                if hgvsc ≠ "" ∧ hgvsc ≠ "-" then extract_clean_change hgvsc else ""
              let clean_hgvsp := extract_clean_protein_change hgvsp
              let hgvs_full :=
                if mane_select ≠ "" ∧ mane_select ≠ "-" then
                  let mane_transcript := maneFirst mane_select
                  if pyStartsWith mane_transcript "NM_" then
                    if clean_hgvsc ≠ "" then
                      mane_transcript ++ "(" ++ gene_symbol ++ "):" ++ clean_hgvsc ++
                        "(" ++ clean_hgvsp ++ ")"
                    else mane_transcript ++ "(" ++ gene_symbol ++ "):" ++ clean_hgvsp
                  else
                    if clean_hgvsc ≠ "" then
                      gene_symbol ++ ":" ++ clean_hgvsc ++ "(" ++ clean_hgvsp ++ ")"
                    else gene_symbol ++ ":" ++ clean_hgvsp
                else
                  if clean_hgvsc ≠ "" then
                    gene_symbol ++ ":" ++ clean_hgvsc ++ "(" ++ clean_hgvsp ++ ")"
                  else gene_symbol ++ ":" ++ clean_hgvsp
              (some
                { internal_id := var_id
                  rsid := rsid
                  spdi := spdi
                  hgvs_full := some hgvs_full
                  hgvsc :=
                    if clean_hgvsc ≠ "" then some (gene_symbol ++ " " ++ clean_hgvsc)
                    else none
                  hgvsp_3p := gene_symbol ++ " p." ++ ref_aa_3 ++ position ++ alt_aa_3
                  hgvsp_3 := gene_symbol ++ " " ++ ref_aa_3 ++ position ++ alt_aa_3
                  hgvsp_1p := gene_symbol ++ " p." ++ ref_aa_1 ++ position ++ alt_aa_1
                  hgvsp_1 := gene_symbol ++ " " ++ ref_aa_1 ++ position ++ alt_aa_1 },
               stats1)
    else (none, { stats with invalid_position := stats.invalid_position + 1 })
  else (none, { stats with invalid_chromosome := stats.invalid_chromosome + 1 })

/-! ## Conversion drivers -/

/-- The per-row body shared verbatim by both driver loops:
`total_rows += 1`, `process_row`, then `processed += 1` on a record or
`skipped += 1` on `None`. -/
def driver_step (r : Row) (s : Stats) : Option Variant × Stats :=
  let s1 := { s with total_rows := s.total_rows + 1 }
  match process_row r s1 with
  | (some v, s2) => (some v, { s2 with processed := s2.processed + 1 })
  | (none, s2) => (none, { s2 with skipped := s2.skipped + 1 })

/-- `process_file_streaming` restricted to its row loop: each accepted
record is written (here: emitted at the head of the output list) as soon as
it is produced. -/
def process_file_streaming_rows : List Row → Stats → List Variant × Stats
  | [], s => ([], s)
  | r :: rs, s =>
    match driver_step r s with
    | (some v, s1) =>
      let rec_rest := process_file_streaming_rows rs s1
      (v :: rec_rest.1, rec_rest.2)
    | (none, s1) => process_file_streaming_rows rs s1

/-- `convert_file` (non-streaming) row loop: records are appended to the
`variants` buffer and returned once the loop finishes. -/
def convert_file_rows_aux : List Row → Stats → List Variant → List Variant × Stats
  | [], s, buffer => (buffer, s)
  | r :: rs, s, buffer =>
    match driver_step r s with
    | (some v, s1) => convert_file_rows_aux rs s1 (buffer ++ [v])
    | (none, s1) => convert_file_rows_aux rs s1 buffer

/-- `convert_file` (non-streaming) restricted to its row loop. -/
def convert_file_rows (rows : List Row) (s : Stats) : List Variant × Stats :=
  convert_file_rows_aux rows s []

/-- The record a row produces, independent of the counters (used to state
order preservation). -/
def row_output (r : Row) : Option Variant := (process_row r stats0).1

/-! ## Concrete rows used in sanity checks, counterexamples and witnesses -/

/-- A well-formed baseline row (valid chromosome and position, an rsID, a
parseable simple-substitution HGVSp). -/
def baseRow : Row :=
  { chrom := "chr17", pos := "100", id := "v1", ref := "G", alt := "A",
    symbol := "GENE", existing_variation := "rs123", gene := "g",
    feature := "f", protein_position := "-", amino_acids := "-",
    mane_select := "-", hgvsc := "-", hgvsp := "X:p.Ala446Thr" }

/-- The worked example of the specification (BRCA1 p.Ala1708Glu). -/
def brca1Row : Row :=
  { chrom := "chr17", pos := "43106478", id := "rs80357382", ref := "G",
    alt := "A", symbol := "BRCA1", existing_variation := "rs80357382",
    gene := "g", feature := "f", protein_position := "1708",
    amino_acids := "A/E", mane_select := "NM_007294.4",
    hgvsc := "ENST00000357654.9:c.5123C>A",
    hgvsp := "ENSP00000350283.3:p.Ala1708Glu" }

/-- Sanity anchor: the embedding reproduces the specification's worked
example (rsid, SPDI, and both protein aliases). -/
theorem brca1_example :
    ((process_row brca1Row stats0).1.map fun v =>
      (v.rsid, v.spdi, v.hgvsp_3p, v.hgvsp_1p)) =
    some (some "rs80357382", "17:43106477:G:A",
          "BRCA1 p.Ala1708Glu", "BRCA1 p.A1708E") := by decide

/-- Row with a present but unparseable HGVSp and usable fallback columns. -/
def rowC1 : Row :=
  { baseRow with hgvsp := "X:p.bogus", protein_position := "446",
                 amino_acids := "A/T" }

/-- Row with absent HGVSp, no rsID, and usable fallback columns. -/
def rowC2 : Row :=
  { baseRow with existing_variation := "-", hgvsp := "",
                 protein_position := "446", amino_acids := "A/T" }

/-- Row whose fallback amino-acid pair is given in 3-letter form. -/
def rowC3 : Row :=
  { baseRow with hgvsp := "", protein_position := "446",
                 amino_acids := "Ala/Thr" }

/-- Row whose chromosome contains `chr` twice; the permissive validator
accepts it (`startswith('chr')`). -/
def rowC5 : Row := { baseRow with chrom := "chrchr5" }

/-- Row whose ALT field is only whitespace (no comma). -/
def rowC10 : Row := { baseRow with alt := " " }

/-- Row whose ALT field is only commas. -/
def rowC10w : Row := { baseRow with alt := ",," }

/-! ## C1 -/

/-- C1 counterexample: `rowC1` has a present (non-empty, non-dash) HGVSp
that no notation shape matches, a non-empty `Protein_position` and an
`Amino_acids` pair of the shape `<ref>/<alt>`, yet `process_row` emits no
record — the fallback path is never taken for a present-but-unparseable
HGVSp — and no counter at all is incremented (in particular not
`missing_hgvsp`). -/
theorem C1_counterexample :
    pyStrip rowC1.hgvsp ≠ "" ∧ pyStrip rowC1.hgvsp ≠ "-" ∧
    parse_hgvsp (pyStrip rowC1.hgvsp) = none ∧
    pyStrip rowC1.protein_position = "446" ∧
    parse_amino_acids (pyStrip rowC1.amino_acids) = some ("A", "T") ∧
    process_row rowC1 stats0 = (none, stats0) := by decide

/-! ## C2 -/

/-- C2 counterexample: for `rowC2` (no rsID, absent HGVSp, successful
fallback) a single driver step increments `missing_rsid`, `missing_hgvsp`
and `processed` — three different non-`errors` counters for one row — while
a record is emitted and `errors` stays untouched. -/
theorem C2_counterexample :
    (driver_step rowC2 stats0).1.isSome = true ∧
    (driver_step rowC2 stats0).2.missing_rsid = stats0.missing_rsid + 1 ∧
    (driver_step rowC2 stats0).2.missing_hgvsp = stats0.missing_hgvsp + 1 ∧
    (driver_step rowC2 stats0).2.processed = stats0.processed + 1 ∧
    (driver_step rowC2 stats0).2.errors = stats0.errors := by decide

/-! ## C3 -/

/-- C3 counterexample: with the 3-letter fallback input `Ala/Thr` the
`hgvsp_1p`/`hgvsp_1` aliases keep the 3-letter codes verbatim — the builder
never converts the raw pair down to 1-letter codes. -/
theorem C3_counterexample :
    pyStrip rowC3.amino_acids = "Ala/Thr" ∧
    ((process_row rowC3 stats0).1.map Variant.hgvsp_1p) =
      some "GENE p.Ala446Thr" ∧
    ((process_row rowC3 stats0).1.map Variant.hgvsp_1) =
      some "GENE Ala446Thr" ∧
    some "GENE p.Ala446Thr" ≠ some ("GENE" ++ " p.A446T") := by decide

/-! ## C4 -/

/-- C4: round-trips through the amino-acid tables.  Every 1-letter code of
the (derived) 1→3 table round-trips, the stop codon as `* → Ter → *`; every
3-letter code of the source table that is not a stop-codon spelling
round-trips the other way. -/
theorem C4_roundtrip :
    (∀ p ∈ AA_1_TO_3_MAP, convert_aa_3_to_1 (convert_1_to_3 p.1) = p.1) ∧
    (∀ p ∈ AA_3_TO_1_MAP, p.2 ≠ "*" →
      convert_1_to_3 (convert_aa_3_to_1 p.1) = p.1) ∧
    convert_1_to_3 "*" = "Ter" ∧ convert_aa_3_to_1 "Ter" = "*" := by decide

/-- C4 witness: the round-trip theorem applied at the concrete table
entries `("A", "Ala")` and `("Ala", "A")`. -/
theorem C4_roundtrip_witness :
    convert_aa_3_to_1 (convert_1_to_3 "A") = "A" ∧
    convert_1_to_3 (convert_aa_3_to_1 "Ala") = "Ala" :=
  ⟨C4_roundtrip.1 ("A", "Ala") (by decide),
   C4_roundtrip.2.1 ("Ala", "A") (by decide) (by decide)⟩

/-! ## C5 counterexample -/

/-- What the specification's words describe: stripping a leading `chr`
prefix (and only a leading one). -/
def specStripChrPref (chrom : String) : String :=
  if pyStartsWith chrom "chr" then ⟨chrom.data.drop 3⟩ else chrom

/-- C5 counterexample: the accepted chromosome `chrchr5` yields the SPDI
`5:99:G:A` because the code removes every occurrence of the substring
`chr`, while the chromosome with only its `chr` prefix removed would give
`chr5:99:G:A`. -/
theorem C5_counterexample :
    validate_chromosome (pyStrip rowC5.chrom) = true ∧
    ((process_row rowC5 stats0).1.map Variant.spdi) = some "5:99:G:A" ∧
    specStripChrPref (pyStrip rowC5.chrom) ++ ":99:G:A" = "chr5:99:G:A" ∧
    some "5:99:G:A" ≠ some ("chr5" ++ ":99:G:A") := by decide

/-! ## C6 counterexample -/

/-- C6 counterexample: the digit run of the substitution pattern accepts
`0`, so `parse_hgvsp` can return the position string `"0"`, whose decimal
value is `0` — not a strictly positive integer. -/
theorem C6_counterexample :
    parse_hgvsp "X:p.Ala0Thr" = some ("X", "0", "Ala", "Thr") ∧
    digitsToNat ("0" : String).data = some 0 ∧ ¬ (0 : Nat) < 0 := by decide

/-! ## C7 counterexample -/

/-- C7 counterexample: `abc` is in no table and is not a symbolic token,
yet `convert_aa_3_to_1` returns it capitalized (`Abc`), not unchanged. -/
theorem C7_counterexample :
    lookup3to1 "abc" = none ∧ lookup1to3 "abc" = none ∧
    (["del", "ins", "dup", "fs", "ext"].contains "abc") = false ∧
    strContains "abc" "fs" = false ∧ strContains "abc" "ext" = false ∧
    convert_aa_3_to_1 "abc" = "Abc" ∧ "Abc" ≠ "abc" := by decide

/-! ## C10 counterexample -/

/-- C10 counterexample: an ALT field consisting only of whitespace (no
comma) strips to the empty string, raises nothing, and the row is emitted
with `errors` untouched — contradicting the claim that any
commas/whitespace-only ALT is dropped through the exception path. -/
theorem C10_counterexample :
    rowC10.alt.data.all (fun c => c == ',' || pyWhitespace.contains c) = true ∧
    handle_multiallelic (pyStrip rowC10.alt) = [""] ∧
    (process_row rowC10 stats0).1.isSome = true ∧
    (process_row rowC10 stats0).2.errors = stats0.errors := by decide

/-! ## Amended universal theorems -/

/-- C7 amended: for a code that is neither symbolic nor a composite with
`fs`/`ext` and whose capitalization is unmapped, `convert_aa_3_to_1`
returns the code *capitalized* (first letter upper, rest lower) — input
unchanged only when already in that form — while `convert_1_to_3` returns
an unmapped non-`*` code truly unchanged; neither can fail. -/
theorem C7_amended (s3 s1 : String)
    (h1 : (["del", "ins", "dup", "fs", "ext"].contains s3) = false)
    (h2 : strContains s3 "fs" = false)
    (h3 : strContains s3 "ext" = false)
    (h4 : lookup3to1 (pyCapitalize s3) = none)
    (h5 : s1 ≠ "*")
    (h6 : lookup1to3 (pyUpper s1) = none) :
    convert_aa_3_to_1 s3 = pyCapitalize s3 ∧ convert_1_to_3 s1 = s1 := by
  constructor
  · have h1a : ¬ (s3 = "del" ∨ s3 = "ins" ∨ s3 = "dup" ∨ s3 = "fs" ∨ s3 = "ext") := by
      simpa using h1
    unfold convert_aa_3_to_1
    simp [h1a, h2, h3, h4]
  · unfold convert_1_to_3
    simp [h5, h6]

/-- C7 witness: the amended theorem applied at the unmapped codes `abC`
(which comes back capitalized as `Abc`) and `b` (unchanged). -/
theorem C7_amended_witness :
    convert_aa_3_to_1 "abC" = pyCapitalize "abC" ∧ convert_1_to_3 "b" = "b" :=
  C7_amended "abC" "b" (by decide) (by decide) (by decide) (by decide)
    (by decide) (by decide)

/-- C10 amended: when the stripped ALT splits to no non-empty allele at all
(`handle_multiallelic` returns the empty list, which requires a comma), the
`alt_alleles[0]` IndexError is caught: the row yields no record, `errors`
is incremented, and `missing_hgvsp` is untouched.  (A whitespace-only ALT
without a comma instead proceeds as the single empty allele, see the
counterexample.) -/
theorem C10_amended (r : Row) (s : Stats)
    (hc : validate_chromosome (pyStrip r.chrom) = true)
    (hp : validate_position (pyStrip r.pos) = true)
    (hid : pyStartsWith (pyStrip r.id) "Sniffles2" = false)
    (hma : handle_multiallelic (pyStrip r.alt) = []) :
    (process_row r s).1 = none ∧
    (process_row r s).2.errors = s.errors + 1 ∧
    (process_row r s).2.missing_hgvsp = s.missing_hgvsp := by
  unfold process_row
  cases hrs : extract_rsid (pyStrip r.existing_variation) <;>
    simp [hc, hp, hid, hma, hrs]

/-- C10 witness: the amended theorem applied at the all-commas ALT `,,`. -/
theorem C10_amended_witness :
    (process_row rowC10w stats0).1 = none ∧
    (process_row rowC10w stats0).2.errors = stats0.errors + 1 ∧
    (process_row rowC10w stats0).2.missing_hgvsp = stats0.missing_hgvsp :=
  C10_amended rowC10w stats0 rfl rfl rfl rfl

/-- C1 amended: for a row past the validation and skip gates with at least
one alternate allele, the fallback path is reachable only when HGVSp is
*absent* (empty or `-`): a present-but-unparseable HGVSp skips the row with
no record and without touching `missing_hgvsp`; an absent HGVSp always
increments `missing_hgvsp` — before the fallback is tried, hence also when
the fallback succeeds — and a record is then emitted iff `Protein_position`
is usable and the `Amino_acids` pair parses. -/
theorem C1_amended (r : Row) (s : Stats) (a : String) (rest : List String)
    (hc : validate_chromosome (pyStrip r.chrom) = true)
    (hp : validate_position (pyStrip r.pos) = true)
    (hid : pyStartsWith (pyStrip r.id) "Sniffles2" = false)
    (hma : handle_multiallelic (pyStrip r.alt) = a :: rest) :
    (¬ (pyStrip r.hgvsp = "" ∨ pyStrip r.hgvsp = "-") →
      parse_hgvsp (pyStrip r.hgvsp) = none →
      (process_row r s).1 = none ∧
      (process_row r s).2.missing_hgvsp = s.missing_hgvsp) ∧
    ((pyStrip r.hgvsp = "" ∨ pyStrip r.hgvsp = "-") →
      (process_row r s).2.missing_hgvsp = s.missing_hgvsp + 1 ∧
      ((process_row r s).1.isSome ↔
        (pyStrip r.protein_position ≠ "" ∧ pyStrip r.protein_position ≠ "-"
          ∧ (parse_amino_acids (pyStrip r.amino_acids)).isSome))) := by
  constructor
  · intro hne hparse
    unfold process_row
    cases hrs : extract_rsid (pyStrip r.existing_variation) <;>
      simp [hc, hp, hid, hma, hrs, hne, hparse]
  · intro habs
    unfold process_row
    cases hrs : extract_rsid (pyStrip r.existing_variation) <;>
      [skip; skip] <;>
      (by_cases hpp : pyStrip r.protein_position ≠ "" ∧ pyStrip r.protein_position ≠ "-") <;>
      (rcases haa : parse_amino_acids (pyStrip r.amino_acids) with _ | ⟨ra, aa⟩) <;>
      simp [hc, hp, hid, hma, hrs, habs, hpp, haa]

/-- C1 witness: the amended theorem at `rowC1` (present, unparseable
HGVSp): no record, `missing_hgvsp` untouched. -/
theorem C1_amended_witness :
    (process_row rowC1 stats0).1 = none ∧
    (process_row rowC1 stats0).2.missing_hgvsp = stats0.missing_hgvsp :=
  (C1_amended rowC1 stats0 "A" [] rfl rfl rfl rfl).1 (by decide) (by decide)

/-- C3 amended: in the fallback path the `_3` aliases use each side
converted by `convert_1_to_3` only when that side is a single character
(otherwise the side verbatim), while the `_1` aliases always carry the raw
parsed sides — a 3-letter input is never converted down to 1-letter. -/
theorem C3_amended (r : Row) (s : Stats) (a : String) (rest : List String)
    (ref1 alt1 : String)
    (hc : validate_chromosome (pyStrip r.chrom) = true)
    (hp : validate_position (pyStrip r.pos) = true)
    (hid : pyStartsWith (pyStrip r.id) "Sniffles2" = false)
    (hma : handle_multiallelic (pyStrip r.alt) = a :: rest)
    (hh : pyStrip r.hgvsp = "" ∨ pyStrip r.hgvsp = "-")
    (hpp : pyStrip r.protein_position ≠ "" ∧ pyStrip r.protein_position ≠ "-")
    (haa : parse_amino_acids (pyStrip r.amino_acids) = some (ref1, alt1)) :
    ∃ v, (process_row r s).1 = some v ∧
      v.hgvsp_3p = pyStrip r.symbol ++ " p." ++
        (if ref1.length = 1 then convert_1_to_3 ref1 else ref1) ++
        pyStrip r.protein_position ++
        (if alt1.length = 1 then convert_1_to_3 alt1 else alt1) ∧
      v.hgvsp_3 = pyStrip r.symbol ++ " " ++
        (if ref1.length = 1 then convert_1_to_3 ref1 else ref1) ++
        pyStrip r.protein_position ++
        (if alt1.length = 1 then convert_1_to_3 alt1 else alt1) ∧
      v.hgvsp_1p = pyStrip r.symbol ++ " p." ++ ref1 ++
        pyStrip r.protein_position ++ alt1 ∧
      v.hgvsp_1 = pyStrip r.symbol ++ " " ++ ref1 ++
        pyStrip r.protein_position ++ alt1 := by
  unfold process_row
  cases hrs : extract_rsid (pyStrip r.existing_variation) <;>
    simp [hc, hp, hid, hma, hrs, hh, hpp, haa]

/-- C3 witness: the amended theorem at `rowC3` (3-letter input
`Ala/Thr`), whose `_1` aliases keep the 3-letter codes. -/
theorem C3_amended_witness :
    ∃ v, (process_row rowC3 stats0).1 = some v ∧
      v.hgvsp_3p = "GENE" ++ " p." ++
        (if ("Ala" : String).length = 1 then convert_1_to_3 "Ala" else "Ala") ++
        "446" ++
        (if ("Thr" : String).length = 1 then convert_1_to_3 "Thr" else "Thr") ∧
      v.hgvsp_3 = "GENE" ++ " " ++
        (if ("Ala" : String).length = 1 then convert_1_to_3 "Ala" else "Ala") ++
        "446" ++
        (if ("Thr" : String).length = 1 then convert_1_to_3 "Thr" else "Thr") ∧
      v.hgvsp_1p = "GENE" ++ " p." ++ "Ala" ++ "446" ++ "Thr" ∧
      v.hgvsp_1 = "GENE" ++ " " ++ "Ala" ++ "446" ++ "Thr" :=
  C3_amended rowC3 stats0 "A" [] "Ala" "Thr" rfl rfl rfl rfl (by decide)
    (by decide) (by decide)

/-! ## C8: fallback/primary parity for the simple-substitution case -/

/-- C8: for any row past the gates with `Protein_position = "446"` and
`Amino_acids = "A/T"`, the variant of that row with HGVSp absent and the
variant of the same row with `HGVSp = "X:p.Ala446Thr"` carry identical
values in all four protein aliases. -/
theorem C8_fallback_parity (r : Row) (s t : Stats) (a : String)
    (rest : List String)
    (hc : validate_chromosome (pyStrip r.chrom) = true)
    (hp : validate_position (pyStrip r.pos) = true)
    (hid : pyStartsWith (pyStrip r.id) "Sniffles2" = false)
    (hma : handle_multiallelic (pyStrip r.alt) = a :: rest)
    (hpp : pyStrip r.protein_position = "446")
    (haa : pyStrip r.amino_acids = "A/T") :
    ∃ vA vB,
      (process_row { r with hgvsp := "" } s).1 = some vA ∧
      (process_row { r with hgvsp := "X:p.Ala446Thr" } t).1 = some vB ∧
      vA.hgvsp_3p = vB.hgvsp_3p ∧ vA.hgvsp_3 = vB.hgvsp_3 ∧
      vA.hgvsp_1p = vB.hgvsp_1p ∧ vA.hgvsp_1 = vB.hgvsp_1 := by
  have e1 : parse_amino_acids "A/T" = some ("A", "T") := rfl
  have e2 : pyStrip "" = "" := rfl
  have e3 : pyStrip "X:p.Ala446Thr" = "X:p.Ala446Thr" := rfl
  have e4 : parse_hgvsp "X:p.Ala446Thr" = some ("X", "446", "Ala", "Thr") := rfl
  have e5 : convert_1_to_3 "A" = "Ala" := rfl
  have e6 : convert_1_to_3 "T" = "Thr" := rfl
  have e7 : convert_aa_3_to_1 "Ala" = "A" := rfl
  have e8 : convert_aa_3_to_1 "Thr" = "T" := rfl
  have e9 : ("A" : String).length = 1 := rfl
  have e10 : ("T" : String).length = 1 := rfl
  unfold process_row
  cases hrs : extract_rsid (pyStrip r.existing_variation) <;>
    simp [hc, hp, hid, hma, hpp, haa, hrs, e1, e2, e3, e4, e5, e6, e7, e8, e9, e10]

/-- The baseline row with the fallback columns set (for the C8 witness). -/
def rowC8 : Row :=
  { baseRow with protein_position := "446", amino_acids := "A/T" }

/-- C8 witness: the parity theorem at `rowC8`, both runs starting from
zeroed counters. -/
theorem C8_fallback_parity_witness :
    ∃ vA vB,
      (process_row { rowC8 with hgvsp := "" } stats0).1 = some vA ∧
      (process_row { rowC8 with hgvsp := "X:p.Ala446Thr" } stats0).1
        = some vB ∧
      vA.hgvsp_3p = vB.hgvsp_3p ∧ vA.hgvsp_3 = vB.hgvsp_3 ∧
      vA.hgvsp_1p = vB.hgvsp_1p ∧ vA.hgvsp_1 = vB.hgvsp_1 :=
  C8_fallback_parity rowC8 stats0 stats0 "A" [] rfl rfl rfl rfl rfl rfl

/-! ## C9: streaming and buffered modes agree -/

/-- The record component of `process_row` does not depend on the counters
(they are only threaded through, never read). -/
theorem process_row_fst_irrel (r : Row) (s t : Stats) :
    (process_row r s).1 = (process_row r t).1 := by
  simp only [process_row]
  cases hc : validate_chromosome (pyStrip r.chrom)
  · rfl
  · cases hp : validate_position (pyStrip r.pos)
    · rfl
    · cases hid : pyStartsWith (pyStrip r.id) "Sniffles2"
      · cases hrs : extract_rsid (pyStrip r.existing_variation) <;>
        rcases hma : handle_multiallelic (pyStrip r.alt) with _ | ⟨a, rest⟩ <;>
        by_cases hh : (pyStrip r.hgvsp = "" ∨ pyStrip r.hgvsp = "-") <;>
        by_cases hpp : (pyStrip r.protein_position ≠ "" ∧
          pyStrip r.protein_position ≠ "-") <;>
        rcases haa : parse_amino_acids (pyStrip r.amino_acids)
          with _ | ⟨ra, aa⟩ <;>
        rcases hhp : parse_hgvsp (pyStrip r.hgvsp)
          with _ | ⟨pid, ppos, pra, paa⟩ <;>
        simp [hrs, hma, hh, hpp, haa, hhp]
      · rfl

/-- The streaming loop emits exactly the order-preserving `filterMap` of
the per-row outputs. -/
theorem streaming_fst_eq_filterMap (rows : List Row) (s : Stats) :
    (process_file_streaming_rows rows s).1 = rows.filterMap row_output := by
  induction rows generalizing s with
  | nil => rfl
  | cons r rs ih =>
    unfold process_file_streaming_rows driver_step
    rcases h : process_row r { s with total_rows := s.total_rows + 1 }
      with ⟨ov, s2⟩
    have hrow : row_output r = ov := by
      rw [row_output,
        process_row_fst_irrel r stats0 { s with total_rows := s.total_rows + 1 },
        h]
    cases ov <;> simp [h, List.filterMap_cons, hrow, ih]

/-- The buffered loop is the streaming loop with the emitted records
accumulated in front. -/
theorem convert_aux_eq_streaming (rows : List Row) (s : Stats)
    (buffer : List Variant) :
    convert_file_rows_aux rows s buffer =
      (buffer ++ (process_file_streaming_rows rows s).1,
       (process_file_streaming_rows rows s).2) := by
  induction rows generalizing s buffer with
  | nil => simp [convert_file_rows_aux, process_file_streaming_rows]
  | cons r rs ih =>
    unfold convert_file_rows_aux process_file_streaming_rows
    rcases h : driver_step r s with ⟨ov, s1⟩
    cases ov <;> simp [ih]

/-- C9: on every input the buffered (non-streaming) mode produces exactly
the same record sequence and final counters as the streaming mode, and that
sequence is the order-preserving `filterMap` of the per-row outputs — each
accepted row's record sits at the position of its row. -/
theorem C9_stream_buffer_equiv (rows : List Row) (s : Stats) :
    convert_file_rows rows s = process_file_streaming_rows rows s ∧
    (process_file_streaming_rows rows s).1 = rows.filterMap row_output := by
  constructor
  · rw [convert_file_rows, convert_aux_eq_streaming]
    simp
  · exact streaming_fst_eq_filterMap rows s

/-! ## C2: counter discipline of a single row -/

/-- `process_row` never touches `total_rows`/`processed`/`skipped`, can
only increase `missing_rsid`, and increments at most one of
`invalid_chromosome`, `invalid_position`, `missing_hgvsp`, `errors`. -/
theorem process_row_stats_delta (r : Row) (s : Stats) :
    (process_row r s).2.total_rows = s.total_rows ∧
    (process_row r s).2.processed = s.processed ∧
    (process_row r s).2.skipped = s.skipped ∧
    s.missing_rsid ≤ (process_row r s).2.missing_rsid ∧
    (process_row r s).2.invalid_chromosome + (process_row r s).2.invalid_position
        + (process_row r s).2.missing_hgvsp + (process_row r s).2.errors
      ≤ s.invalid_chromosome + s.invalid_position + s.missing_hgvsp
        + s.errors + 1 := by
  simp only [process_row]
  cases hc : validate_chromosome (pyStrip r.chrom)
  · simp
    omega
  · cases hp : validate_position (pyStrip r.pos)
    · simp
      omega
    · cases hid : pyStartsWith (pyStrip r.id) "Sniffles2"
      · cases hrs : extract_rsid (pyStrip r.existing_variation) <;>
        rcases hma : handle_multiallelic (pyStrip r.alt) with _ | ⟨a, rest⟩ <;>
        by_cases hh : (pyStrip r.hgvsp = "" ∨ pyStrip r.hgvsp = "-") <;>
        by_cases hpp : (pyStrip r.protein_position ≠ "" ∧
          pyStrip r.protein_position ≠ "-") <;>
        rcases haa : parse_amino_acids (pyStrip r.amino_acids)
          with _ | ⟨ra, aa⟩ <;>
        rcases hhp : parse_hgvsp (pyStrip r.hgvsp)
          with _ | ⟨pid, ppos, pra, paa⟩ <;>
        simp [hrs, hma, hh, hpp, haa, hhp] <;> omega
      · simp

/-- C2 amended: per driver step, `total_rows` always increments and exactly
one of `processed`/`skipped` increments (`processed` iff a record was
emitted); at most one of `invalid_chromosome`, `invalid_position`,
`missing_hgvsp`, `errors` increments — but `missing_rsid` (and, when the
fallback runs, `missing_hgvsp` alongside `processed`) may additionally
increment for the same row, so "exactly one counter per exit" does not
hold; see the counterexample. -/
theorem C2_amended (r : Row) (s : Stats) :
    (driver_step r s).2.total_rows = s.total_rows + 1 ∧
    (driver_step r s).2.processed + (driver_step r s).2.skipped
      = s.processed + s.skipped + 1 ∧
    ((driver_step r s).1.isSome ↔
      (driver_step r s).2.processed = s.processed + 1) ∧
    (driver_step r s).2.invalid_chromosome
        + (driver_step r s).2.invalid_position
        + (driver_step r s).2.missing_hgvsp + (driver_step r s).2.errors
      ≤ s.invalid_chromosome + s.invalid_position + s.missing_hgvsp
        + s.errors + 1 ∧
    s.missing_rsid ≤ (driver_step r s).2.missing_rsid := by
  unfold driver_step
  rcases h : process_row r { s with total_rows := s.total_rows + 1 }
    with ⟨ov, s2⟩
  have hd := process_row_stats_delta r { s with total_rows := s.total_rows + 1 }
  rw [h] at hd
  simp at hd
  cases ov <;> simp [h] <;> omega

/-! ## C5: the SPDI string -/

/-- Occurrences of a character in a string. -/
def countChar (s : String) (c : Char) : Nat := s.data.count c

/-- Decimal digit characters are never a colon. -/
theorem digitChar_ne_colon : ∀ n : Nat, Nat.digitChar n ≠ ':'
  | 0 => by decide
  | 1 => by decide
  | 2 => by decide
  | 3 => by decide
  | 4 => by decide
  | 5 => by decide
  | 6 => by decide
  | 7 => by decide
  | 8 => by decide
  | 9 => by decide
  | 10 => by decide
  | 11 => by decide
  | 12 => by decide
  | 13 => by decide
  | 14 => by decide
  | 15 => by decide
  | (n + 16) => by
    show ('*' : Char) ≠ ':'
    decide

/-- The digit expansion of a natural number contains no colon. -/
theorem toDigitsCore_count_colon (fuel : Nat) :
    ∀ (n : Nat) (acc : List Char), acc.count ':' = 0 →
      (Nat.toDigitsCore 10 fuel n acc).count ':' = 0 := by
  induction fuel with
  | zero => intro n acc h; simpa [Nat.toDigitsCore] using h
  | succ fuel ih =>
    intro n acc h
    unfold Nat.toDigitsCore
    have hd : (Nat.digitChar (n % 10) :: acc).count ':' = 0 := by
      simp [List.count_cons, h, digitChar_ne_colon]
    by_cases h10 : n / 10 = 0
    · simpa [h10] using hd
    · simpa [h10] using ih (n / 10) _ hd

/-- `Nat.repr` contains no colon. -/
theorem natRepr_count_colon (m : Nat) : (Nat.repr m).data.count ':' = 0 :=
  toDigitsCore_count_colon (m + 1) m [] rfl

/-- The decimal rendering of a non-negative integer contains no colon. -/
theorem intToString_count_colon (p : Int) (hp : 0 ≤ p) :
    countChar (toString p) ':' = 0 := by
  obtain ⟨m, rfl⟩ := Int.eq_ofNat_of_zero_le hp
  exact natRepr_count_colon m

/-- A four-part colon join has exactly three colons when every part is
colon-free. -/
theorem spdi_join_count (c0 p0 r0 a0 : String)
    (h1 : countChar c0 ':' = 0) (h2 : countChar p0 ':' = 0)
    (h3 : countChar r0 ':' = 0) (h4 : countChar a0 ':' = 0) :
    countChar (c0 ++ ":" ++ p0 ++ ":" ++ r0 ++ ":" ++ a0) ':' = 3 := by
  simp only [countChar] at *
  simp [String.data_append, List.count_append, h1, h2, h3, h4,
    List.count_cons, show (":" : String).data = [':'] from rfl]

/-- C5 amended: every emitted record's `spdi` is built from the chromosome
with **every occurrence** of the substring `chr` removed (not only a
leading prefix), the exact 0-based position `POS - 1`, the REF field and
the *first* ALT allele, joined by colons; the rendered position is always
colon-free, so the string has exactly four colon-separated fields whenever
the chromosome (after removal), REF and the first allele are themselves
colon-free. -/
theorem C5_amended (r : Row) (s : Stats) (v : Variant)
    (hv : (process_row r s).1 = some v) :
    ∃ p : Int, pyInt (pyStrip r.pos) = some p ∧ 0 < p ∧
      v.spdi = pyReplace (pyStrip r.chrom) "chr" "" ++ ":" ++ toString (p - 1)
        ++ ":" ++ pyStrip r.ref ++ ":"
        ++ (handle_multiallelic (pyStrip r.alt)).headD "" ∧
      (countChar (pyReplace (pyStrip r.chrom) "chr" "") ':' = 0 →
        countChar (pyStrip r.ref) ':' = 0 →
        countChar ((handle_multiallelic (pyStrip r.alt)).headD "") ':' = 0 →
        countChar v.spdi ':' = 3) := by
  cases hc : validate_chromosome (pyStrip r.chrom)
  · simp [process_row, hc] at hv
  · cases hp : validate_position (pyStrip r.pos)
    · simp [process_row, hc, hp] at hv
    · obtain ⟨p, hpi, hppos⟩ :
          ∃ p, pyInt (pyStrip r.pos) = some p ∧ 0 < p := by
        unfold validate_position at hp
        rcases hq : pyInt (pyStrip r.pos) with _ | q
        · rw [hq] at hp; simp at hp
        · rw [hq] at hp; simp at hp; exact ⟨q, rfl, hp⟩
      refine ⟨p, hpi, hppos, ?_⟩
      have hcf : ∀ c0 p0 r0 a0 : String, countChar c0 ':' = 0 →
          countChar r0 ':' = 0 → countChar a0 ':' = 0 →
          countChar (c0 ++ ":" ++ toString (p - 1) ++ ":" ++ r0 ++ ":" ++ a0)
            ':' = 3 := fun c0 p0 r0 a0 h1 h3 h4 =>
        spdi_join_count c0 (toString (p - 1)) r0 a0 h1
          (intToString_count_colon (p - 1) (by omega)) h3 h4
      simp only [process_row] at hv
      cases hid : pyStartsWith (pyStrip r.id) "Sniffles2"
      · cases hrs : extract_rsid (pyStrip r.existing_variation) <;>
        rcases hma : handle_multiallelic (pyStrip r.alt) with _ | ⟨a, rest⟩ <;>
        by_cases hh : (pyStrip r.hgvsp = "" ∨ pyStrip r.hgvsp = "-") <;>
        by_cases hpp : (pyStrip r.protein_position ≠ "" ∧
          pyStrip r.protein_position ≠ "-") <;>
        rcases haa : parse_amino_acids (pyStrip r.amino_acids)
          with _ | ⟨ra, aa⟩ <;>
        rcases hhp : parse_hgvsp (pyStrip r.hgvsp)
          with _ | ⟨pid, ppos, pra, paa⟩
        all_goals simp [hc, hp, hid, hrs, hma, hh, hpp, haa, hhp, hpi] at hv
        all_goals subst hv
        all_goals refine ⟨by simp [hma], fun h1 h3 h4 => ?_⟩
        all_goals simp only [hma, List.headD_cons] at h4
        all_goals simpa using hcf _ "" _ _ h1 h3 h4
      · simp [hc, hp, hid] at hv

/-- The record `baseRow` produces (for the C5 witness). -/
def baseVariant : Variant :=
  { internal_id := "v1", rsid := some "rs123", spdi := "17:99:G:A",
    hgvs_full := some "GENE:p.Ala446Thr", hgvsc := none,
    hgvsp_3p := "GENE p.Ala446Thr", hgvsp_3 := "GENE Ala446Thr",
    hgvsp_1p := "GENE p.A446T", hgvsp_1 := "GENE A446T" }

/-- C5 witness: the amended theorem applied at `baseRow` and its emitted
record. -/
theorem C5_amended_witness :
    ∃ p : Int, pyInt (pyStrip baseRow.pos) = some p ∧ 0 < p ∧
      baseVariant.spdi = pyReplace (pyStrip baseRow.chrom) "chr" "" ++ ":"
        ++ toString (p - 1) ++ ":" ++ pyStrip baseRow.ref ++ ":"
        ++ (handle_multiallelic (pyStrip baseRow.alt)).headD "" ∧
      (countChar (pyReplace (pyStrip baseRow.chrom) "chr" "") ':' = 0 →
        countChar (pyStrip baseRow.ref) ':' = 0 →
        countChar ((handle_multiallelic (pyStrip baseRow.alt)).headD "")
          ':' = 0 →
        countChar baseVariant.spdi ':' = 3) :=
  C5_amended baseRow stats0 baseVariant (by decide)


/-! ## C6: invariants of the parsed protein-change tuple -/

/-- `take3Alpha` only succeeds with a non-empty (three-character) capture. -/
theorem take3Alpha_inv {cs l r : List Char}
    (h : take3Alpha cs = some (l, r)) : l ≠ [] := by
  unfold take3Alpha at h
  split at h
  · split at h
    · simp only [Option.some.injEq, Prod.mk.injEq] at h
      obtain ⟨h1, _⟩ := h
      subst h1
      simp
    · simp at h
  · simp at h

/-- `takeDigits1` only succeeds with a non-empty all-digit capture. -/
theorem takeDigits1_inv {cs ds r : List Char}
    (h : takeDigits1 cs = some (ds, r)) :
    ds ≠ [] ∧ ds.all Char.isDigit = true := by
  unfold takeDigits1 at h
  rcases htw : cs.takeWhile Char.isDigit with _ | ⟨d, t⟩
  · rw [htw] at h; simp at h
  · rw [htw] at h
    simp only [Option.some.injEq, Prod.mk.injEq] at h
    obtain ⟨h1, _⟩ := h
    subst h1
    refine ⟨by simp, ?_⟩
    rw [List.all_eq_true]
    intro c hcmem
    exact List.mem_takeWhile_imp (htw ▸ hcmem)

/-- The `([A-Za-z]{3}|\*)` alternative captures a non-empty string. -/
theorem takeAltSub_inv {r3 altc r4 : List Char}
    (h : takeAltSub r3 = some (altc, r4)) : altc ≠ [] := by
  unfold takeAltSub at h
  split at h
  · simp only [Option.some.injEq, Prod.mk.injEq] at h
    obtain ⟨h1, _⟩ := h
    subst h1
    simp
  · exact take3Alpha_inv h

/-- A string made from a non-empty character list is not empty. -/
theorem mkStr_ne_empty {l : List Char} (h : l ≠ []) : (⟨l⟩ : String) ≠ "" := by
  intro heq
  exact h (congrArg String.data heq)

/-- Appending a string with non-empty contents keeps a string non-empty. -/
theorem append_ne_empty (s t : String) (h : t.data ≠ []) : s ++ t ≠ "" := by
  intro heq
  have hd := congrArg String.data heq
  rw [String.data_append] at hd
  exact h (List.append_eq_nil.mp hd).2

/-- Inversion for the simple-substitution pattern. -/
theorem parseSimpleSub_inv {cs : List Char} {pid pos ref alt : String}
    (h : parseSimpleSub cs = some (pid, pos, ref, alt)) :
    pyIsDigitStr pos = true ∧ ref ≠ "" ∧ alt ≠ "" := by
  unfold parseSimpleSub at h
  split at h
  · simp at h
  rename_i pidc r1 hhead
  split at h
  · simp at h
  rename_i refc r2 h1
  split at h
  · simp at h
  rename_i ds r3 h2
  split at h
  · simp at h
  rename_i altc r4 h3
  split at h
  · simp only [Option.some.injEq, Prod.mk.injEq] at h
    obtain ⟨hpid, hpos, href, halt⟩ := h
    subst hpos; subst href; subst halt
    obtain ⟨hne, hall⟩ := takeDigits1_inv h2
    exact ⟨by simp [pyIsDigitStr, hne, hall],
      mkStr_ne_empty (take3Alpha_inv h1), mkStr_ne_empty (takeAltSub_inv h3)⟩
  · simp at h

/-- Inversion for the frameshift pattern. -/
theorem parseFs_inv {cs : List Char} {pid pos ref alt : String}
    (h : parseFs cs = some (pid, pos, ref, alt)) :
    pyIsDigitStr pos = true ∧ ref ≠ "" ∧ alt ≠ "" := by
  unfold parseFs at h
  split at h
  · simp at h
  rename_i pidc r1 hhead
  split at h
  · simp at h
  rename_i refc r2 h1
  split at h
  · simp at h
  rename_i ds r3 h2
  split at h
  · simp at h
  rename_i altc r4 h3
  split at h
  · simp only [Option.some.injEq, Prod.mk.injEq] at h
    obtain ⟨hpid, hpos, href, halt⟩ := h
    subst hpos; subst href; subst halt
    obtain ⟨hne, hall⟩ := takeDigits1_inv h2
    exact ⟨by simp [pyIsDigitStr, hne, hall],
      mkStr_ne_empty (take3Alpha_inv h1), append_ne_empty _ _ (by decide)⟩
  · simp at h

/-- Inversion for the deletion pattern. -/
theorem parseDel_inv {cs : List Char} {pid pos ref alt : String}
    (h : parseDel cs = some (pid, pos, ref, alt)) :
    pyIsDigitStr pos = true ∧ ref ≠ "" ∧ alt ≠ "" := by
  unfold parseDel at h
  split at h
  · simp at h
  rename_i pidc r1 hhead
  split at h
  · simp at h
  rename_i refc r2 h1
  split at h
  · simp at h
  rename_i ds r3 h2
  split at h
  · simp only [Option.some.injEq, Prod.mk.injEq] at h
    obtain ⟨hpid, hpos, href, halt⟩ := h
    subst hpos; subst href; subst halt
    obtain ⟨hne, hall⟩ := takeDigits1_inv h2
    exact ⟨by simp [pyIsDigitStr, hne, hall],
      mkStr_ne_empty (take3Alpha_inv h1), by decide⟩
  · simp at h

/-- Inversion for the insertion pattern. -/
theorem parseIns_inv {cs : List Char} {pid pos ref alt : String}
    (h : parseIns cs = some (pid, pos, ref, alt)) :
    pyIsDigitStr pos = true ∧ ref ≠ "" ∧ alt ≠ "" := by
  unfold parseIns at h
  split at h
  · simp at h
  rename_i pidc r1 hhead
  split at h
  · simp at h
  rename_i refc r2 h1
  split at h
  · simp at h
  rename_i ds r3 h2
  split at h
  case _ r4 =>
    split at h
    · simp at h
    rename_i mc r5 h4
    split at h
    · simp at h
    rename_i ds2 r6 h5
    split at h
    case _ c rest =>
      split at h
      · simp only [Option.some.injEq, Prod.mk.injEq] at h
        obtain ⟨hpid, hpos, href, halt⟩ := h
        subst hpos; subst href; subst halt
        obtain ⟨hne, hall⟩ := takeDigits1_inv h2
        exact ⟨by simp [pyIsDigitStr, hne, hall],
          mkStr_ne_empty (take3Alpha_inv h1), by decide⟩
      · simp at h
    case _ => simp at h
  case _ => simp at h

/-- Inversion for the duplication pattern. -/
theorem parseDup_inv {cs : List Char} {pid pos ref alt : String}
    (h : parseDup cs = some (pid, pos, ref, alt)) :
    pyIsDigitStr pos = true ∧ ref ≠ "" ∧ alt ≠ "" := by
  unfold parseDup at h
  split at h
  · simp at h
  rename_i pidc r1 hhead
  split at h
  · simp at h
  rename_i refc r2 h1
  split at h
  · simp at h
  rename_i ds r3 h2
  split at h
  · simp only [Option.some.injEq, Prod.mk.injEq] at h
    obtain ⟨hpid, hpos, href, halt⟩ := h
    subst hpos; subst href; subst halt
    obtain ⟨hne, hall⟩ := takeDigits1_inv h2
    exact ⟨by simp [pyIsDigitStr, hne, hall],
      mkStr_ne_empty (take3Alpha_inv h1), by decide⟩
  · simp at h

/-- Inversion for the extension pattern. -/
theorem parseExt_inv {cs : List Char} {pid pos ref alt : String}
    (h : parseExt cs = some (pid, pos, ref, alt)) :
    pyIsDigitStr pos = true ∧ ref ≠ "" ∧ alt ≠ "" := by
  unfold parseExt at h
  split at h
  · simp at h
  rename_i pidc r1 hhead
  split at h
  case _ r2 =>
    split at h
    · simp at h
    rename_i ds r3 h2
    split at h
    · simp at h
    rename_i nc r4 h3
    split at h
    · simp only [Option.some.injEq, Prod.mk.injEq] at h
      obtain ⟨hpid, hpos, href, halt⟩ := h
      subst hpos; subst href; subst halt
      obtain ⟨hne, hall⟩ := takeDigits1_inv h2
      exact ⟨by simp [pyIsDigitStr, hne, hall], by decide,
        append_ne_empty _ _ (by decide)⟩
    · simp at h
  case _ => simp at h

/-- C6 amended: whenever `parse_hgvsp` returns a tuple, the position
component is a non-empty string of decimal digits — though it may denote
zero, see the counterexample — and the ref/alt components are never
empty. -/
theorem C6_amended (hg pid pos ref alt : String)
    (h : parse_hgvsp hg = some (pid, pos, ref, alt)) :
    pyIsDigitStr pos = true ∧ ref ≠ "" ∧ alt ≠ "" := by
  unfold parse_hgvsp at h
  by_cases h0 : (hg = "" ∨ hg = "-")
  · simp [h0] at h
  rw [if_neg h0] at h
  by_cases h1 : strHasChar (pyReplace hg "%3D" "=") '=' = true
  · simp [h1] at h
  rw [if_neg h1] at h
  split at h
  · rename_i t e1
    simp only [Option.some.injEq] at h
    subst h
    exact parseSimpleSub_inv e1
  · split at h
    · rename_i t e2
      simp only [Option.some.injEq] at h
      subst h
      exact parseFs_inv e2
    · split at h
      · rename_i t e3
        simp only [Option.some.injEq] at h
        subst h
        exact parseDel_inv e3
      · split at h
        · rename_i t e4
          simp only [Option.some.injEq] at h
          subst h
          exact parseIns_inv e4
        · split at h
          · rename_i t e5
            simp only [Option.some.injEq] at h
            subst h
            exact parseDup_inv e5
          · exact parseExt_inv h

/-- C6 witness: the amended invariant applied to the parse of
`X:p.Ala446Thr`. -/
theorem C6_amended_witness :
    pyIsDigitStr "446" = true ∧ ("Ala" : String) ≠ "" ∧
      ("Thr" : String) ≠ "" :=
  C6_amended "X:p.Ala446Thr" "X" "446" "Ala" "Thr" (by decide)

end BedToJson
